import Mathlib

/-!
Verification of the ArchiveBot crawler sources against its design document.

Shallow embedding: the Go structures become Lean structures, timestamps are
modelled as `Int` (unix epochs; the Go `time.Time` and `float64` epochs hold
integral second values in every code path modelled here, so integer arithmetic
is exact), and fallible or panicking code paths return `Except Unit` where
`Except.error ()` stands for a Go runtime panic (nil-pointer dereference,
slice index out of range, or close of an already-closed channel).
-/

/-! ## Rate limiter (src/reddit.go)

`RateLimit` embeds the Go struct of the same name (src/reddit.go:45-51):
observation time, used / remaining quota, reset duration, and reset time.
-/

structure RateLimit where
  time : Int
  used : Int
  remaining : Int
  reset : Int
  resetTime : Int
deriving DecidableEq, Repr

/-- Embedding of `Reddit.SetRateLimit` (src/reddit.go:264-298).  The Go body
locks, reads the held snapshot, installs `newLimit` when nothing is held or
when `currentLimit.time.Before(newLimit.time)`, and otherwise returns leaving
the held snapshot in place.  The remaining statements only log. -/
def SetRateLimit (held : Option RateLimit) (newLimit : RateLimit) : Option RateLimit :=
  match held with
  | none => some newLimit
  | some currentLimit =>
    if currentLimit.time < newLimit.time then some newLimit else some currentLimit

/-- Embedding of `Reddit.IsRateLimited` (src/reddit.go:313-319).  The Go code is
`if r.rateLimit == nil || r.rateLimit.currentRateLimit != nil { return false }`
followed by `return time.Now().Before(r.rateLimit.currentRateLimit.resetTime)`.
The `Limiter` is always allocated by `NewRedditClient` (src/reddit.go:153-156),
so the first disjunct is false and the guard reduces to
`currentRateLimit != nil`.  Hence a held snapshot always yields `false`, and
when no snapshot is held the final line dereferences the nil
`currentRateLimit`, a run-time panic, modelled as `Except.error ()`. -/
def IsRateLimited (currentRateLimit : Option RateLimit) (now : Int) : Except Unit Bool :=
  match currentRateLimit with
  | some _ => Except.ok false
  | none => Except.error ()

/-- The spec predicate for being blocked: `remaining == 0 AND now < resetAt`
(spec section 4.3), stated on a held snapshot. -/
def specIsBlocked (rl : RateLimit) (now : Int) : Prop :=
  rl.remaining = 0 ∧ now < rl.resetTime

/-- C2.  The claim says `IsRateLimited` returns true for every held snapshot
with `remaining = 0` and an unexpired reset time.  The code instead returns
`false` whenever any snapshot is held (and panics when none is): at the
concrete held snapshot with `remaining = 0`, `resetTime = 100` and `now = 50`
the blocked predicate of the spec holds, yet `IsRateLimited` answers `false`;
with no snapshot held it panics. -/
theorem isRateLimited_false_on_exhausted_quota :
    specIsBlocked ⟨0, 60, 0, 600, 100⟩ 50 ∧
    IsRateLimited (some ⟨0, 60, 0, 600, 100⟩) 50 = Except.ok false ∧
    IsRateLimited none 50 = Except.error () := by
  refine ⟨⟨rfl, by decide⟩, rfl, rfl⟩

/-- C5.  `SetRateLimit` replaces the held snapshot exactly when the new
observation time is strictly newer (or nothing is held), and feeding two
snapshots with `a.time < b.time` in either order starting from an empty
limiter leaves the newer snapshot `b` held. -/
theorem setRateLimit_freshness (a b : RateLimit) (h : a.time < b.time) :
    SetRateLimit (SetRateLimit none a) b = some b ∧
    SetRateLimit (SetRateLimit none b) a = some b ∧
    SetRateLimit none b = some b ∧
    (∀ cur : RateLimit, cur.time < b.time → SetRateLimit (some cur) b = some b) ∧
    (∀ cur : RateLimit, ¬ cur.time < b.time → SetRateLimit (some cur) b = some cur) := by
  refine ⟨?_, ?_, rfl, ?_, ?_⟩
  · simp [SetRateLimit, h]
  · simp [SetRateLimit, not_lt_of_gt h]
  · intro cur hc; simp [SetRateLimit, hc]
  · intro cur hc; simp [SetRateLimit, hc]

/-- Witness for C5 at two concrete snapshots observed at times 1 and 2. -/
theorem setRateLimit_freshness_witness :
    SetRateLimit (SetRateLimit none ⟨1, 0, 5, 10, 11⟩) ⟨2, 1, 4, 9, 12⟩ = some ⟨2, 1, 4, 9, 12⟩ := by
  exact (setRateLimit_freshness ⟨1, 0, 5, 10, 11⟩ ⟨2, 1, 4, 9, 12⟩ (by decide)).1

/-! ## Listing request construction (src/reddit.go getSubmissions)

`getSubmissions` (src/reddit.go:170-236) first rejects parameter sets in which
both cursors are non-empty, then builds the query it sends.  The url.Values
literal on src/reddit.go:194-203 maps the "after" key to `params.After` and the
"before" key to `params.After` as well.
-/

structure ListingOptions where
  before : String
  after : String
deriving DecidableEq, Repr

/-- The cursor parameters of the HTTP request the crawler actually issues. -/
structure ListingRequest where
  afterParam : String
  beforeParam : String
deriving DecidableEq, Repr

/-- Embedding of the guard and request construction of `getSubmissions`
(src/reddit.go:175-203).  Both cursors set is an error returned to the caller;
otherwise the request carries `after = params.After` and, per line 199 of the
source, `before = params.After` as well. -/
def getSubmissionsRequest (params : ListingOptions) : Except Unit ListingRequest :=
  if params.before ≠ "" ∧ params.after ≠ "" then Except.error ()
  else Except.ok ⟨params.after, params.after⟩

/-- Exactly one of the request cursors is non-empty (the property of C1). -/
def exactlyOneCursor (req : ListingRequest) : Prop :=
  (req.afterParam ≠ "" ∧ req.beforeParam = "") ∨ (req.afterParam = "" ∧ req.beforeParam ≠ "")

/-- C1.  Resuming forwards from the stored anchor `t3_abcdef` the request
carries both cursors equal to `t3_abcdef` (both non-empty), and resuming
backwards from the same anchor the request carries neither cursor, so in both
directions the issued request violates the exactly-one-cursor property. -/
theorem getSubmissions_cursor_duplicated :
    getSubmissionsRequest ⟨"", "t3_abcdef"⟩ = Except.ok ⟨"t3_abcdef", "t3_abcdef"⟩ ∧
    getSubmissionsRequest ⟨"t3_abcdef", ""⟩ = Except.ok ⟨"", ""⟩ ∧
    ¬ exactlyOneCursor ⟨"t3_abcdef", "t3_abcdef"⟩ ∧
    ¬ exactlyOneCursor ⟨"", ""⟩ := by
  refine ⟨rfl, rfl, ?_, ?_⟩ <;> simp [exactlyOneCursor]

/-! ## Scheduler shutdown (src/processes.go)

`Processes.Close` (src/processes.go:80-88) runs
`p.client.closed = true; <-p.routineTicker; close(p.routineTicker)` and then
the registered close functions.  We track the closed flag and whether the
`routineTicker` channel has been closed.  A receive from a closed channel
completes immediately; `close` of an already-closed channel is a Go run-time
panic.
-/

structure ProcState where
  closedFlag : Bool
  tickerClosed : Bool
deriving DecidableEq, Repr

inductive CloseOutcome where
  | ok (st : ProcState)
  | panicClosedChannel
deriving DecidableEq, Repr

/-- Embedding of `Processes.Close` (src/processes.go:80-88): set the closed
flag, receive one value from `routineTicker` (immediate when the channel is
already closed), then close the channel, which panics when it is already
closed. -/
def processesClose (st : ProcState) : CloseOutcome :=
  let st1 : ProcState := { st with closedFlag := true }
  if st1.tickerClosed then CloseOutcome.panicClosedChannel
  else CloseOutcome.ok { st1 with tickerClosed := true }

/-- C10.  A first `Close` from the initial state leaves the channel closed;
invoking `Close` a second time on that resulting state reaches
`close(p.routineTicker)` with the channel already closed and panics, instead
of observing a flag and returning. -/
theorem processes_double_close_panics :
    processesClose ⟨false, false⟩ = CloseOutcome.ok ⟨true, true⟩ ∧
    processesClose ⟨true, true⟩ = CloseOutcome.panicClosedChannel := by
  exact ⟨rfl, rfl⟩

/-! ## Anchor bookkeeping after a listing page (src/routine.go checkSubmissions)

`checkSubmissions` (src/routine.go:119-161) receives the fetched page and the
direction, early-returns on an empty page only when the matching cursor is also
empty, and otherwise indexes into the page and updates the End / Start /
Current anchors through Redis.  A `Post.Created` of `none` embeds the nil
`*reddit.Timestamp`.
-/

structure Post where
  fullID : String
  created : Option Int
deriving DecidableEq, Repr

structure PostsPage where
  posts : List Post
  before : String
  after : String
deriving DecidableEq, Repr

structure Anchor where
  fullID : String
  epoch : Int
deriving DecidableEq, Repr

/-- The anchor values held after a `checkSubmissions` call: the Start and End
anchors and, when set, the Current anchor together with the direction flag
written beside it by `setCurrentAnchor` (src/redis.go:241-252). -/
structure CheckResult where
  startAnchor : Option Anchor
  endAnchor : Option Anchor
  currentAnchor : Option (Anchor × Bool)
deriving DecidableEq, Repr

/-- Embedding of `checkSubmissions` (src/routine.go:119-161).

* Empty page: `return nil` only under `(posts.After == "" && isForwards) ||
  (posts.Before == "" && !isForwards)`; otherwise control falls through to the
  indexing below, which on an empty page is a slice index out of range
  (`posts.Posts[len(posts.Posts)-1]` or `posts.Posts[0]`), hence
  `Except.error ()`.
* Forwards: `lastSubmission := posts.Posts[len-1]`; the branch
  `if lastSubmission.Created != nil` only logs, so with a present timestamp the
  End anchor is never written; with a nil timestamp the `else if` evaluates
  `lastSubmission.Created.Before(...)` or dereferences `*lastSubmission.Created`,
  a nil-pointer panic either way.
* Backwards: `firstSubmission := posts.Posts[0]`; with a nil timestamp only a
  log happens, otherwise Start is rewritten when unset or when
  `!c.Search.Start.Epoch.Before(*firstSubmission.Created)`.
* Finally Current (with the direction flag) is written whenever the chosen
  submission has a present timestamp. -/
def checkSubmissions (startAnchor endAnchor : Option Anchor)
    (page : PostsPage) (isForwards : Bool) : Except Unit CheckResult :=
  if page.posts = [] ∧
      ((page.after = "" ∧ isForwards = true) ∨ (page.before = "" ∧ isForwards = false)) then
    Except.ok ⟨startAnchor, endAnchor, none⟩
  else if isForwards then
    match page.posts.getLast? with
    | none => Except.error ()
    | some lastSubmission =>
      match lastSubmission.created with
      | some t =>
        Except.ok ⟨startAnchor, endAnchor, some (⟨lastSubmission.fullID, t⟩, true)⟩
      | none => Except.error ()
  else
    match page.posts.head? with
    | none => Except.error ()
    | some firstSubmission =>
      match firstSubmission.created with
      | none => Except.ok ⟨startAnchor, endAnchor, none⟩
      | some t =>
        let newStart :=
          match startAnchor with
          | none => some (⟨firstSubmission.fullID, t⟩ : Anchor)
          | some s => if ¬ s.epoch < t then some (⟨firstSubmission.fullID, t⟩ : Anchor) else some s
        Except.ok ⟨newStart, endAnchor, some (⟨firstSubmission.fullID, t⟩, false)⟩

/-- C4.  A processed forward page whose terminal submission has timestamp 100,
strictly newer than the stored End anchor epoch 50, must per the claim move the
End anchor to 100; the code leaves the End anchor untouched (the inverted
`Created != nil` guard routes every timestamped submission into the log-only
branch), and a forward page whose terminal submission lacks a timestamp panics
on the nil dereference rather than skipping the update. -/
theorem checkSubmissions_end_never_updated :
    checkSubmissions none (some ⟨"t3_old000", 50⟩) ⟨[⟨"t3_new000", some 100⟩], "", "t3_new000"⟩ true
      = Except.ok ⟨none, some ⟨"t3_old000", 50⟩, some (⟨"t3_new000", 100⟩, true)⟩ ∧
    checkSubmissions none (some ⟨"t3_old000", 50⟩) ⟨[⟨"t3_new000", none⟩], "", "t3_new000"⟩ true
      = Except.error () := by
  exact ⟨rfl, rfl⟩

/-- C8.  An empty forward page whose response still carries a non-empty after
cursor falls through the early return and indexes `posts.Posts[len-1]` on an
empty slice: an out-of-range panic, not a normal end of iteration.  (With an
empty cursor the early return does fire.) -/
theorem checkSubmissions_empty_page_panics :
    checkSubmissions none none ⟨[], "", "t3_next00"⟩ true = Except.error () ∧
    checkSubmissions none none ⟨[], "", ""⟩ true = Except.ok ⟨none, none, none⟩ ∧
    checkSubmissions none none ⟨[], "t3_next00", ""⟩ false = Except.error () := by
  refine ⟨?_, rfl, ?_⟩ <;> simp [checkSubmissions]

/-! ## Query engine (src/unnamed/part_006 SearchCommand and ZIntersect)

`redis.Z` carries a float score and an `interface{}` member; the members
written by the index are strings and the zero value of `redis.Z` has a nil
member, embedded as `Option String`.
-/

structure Zentry where
  score : Int
  member : Option String
deriving DecidableEq, Repr

/-- The zero value of `redis.Z`: score 0 and a nil member. -/
def zZero : Zentry := ⟨0, none⟩

/-- The scanning loop of `ZIntersect` (src/unnamed/part_006:236-246): walk the
larger set, append every element contained in the base set built from the
smaller set (Go map keys compare the whole `redis.Z` value, score included),
and break once `cap` elements have been collected. -/
def zIntersectLoop (base : List Zentry) (cap : Nat) : List Zentry → List Zentry
  | [] => []
  | item :: rest =>
    if base.contains item then
      if cap ≤ 1 then [item]
      else item :: zIntersectLoop base (cap - 1) rest
    else zIntersectLoop base cap rest

/-- Embedding of `ZIntersect` (src/unnamed/part_006:219-248).  The Go function
allocates `keys := make([]redis.Z, len(smaller))`, fills a prefix with the
collected matches, and returns the whole slice — so the positions the loop
never reached stay at the zero value of `redis.Z`. -/
def ZIntersect (a b : List Zentry) : List Zentry :=
  let larger := if a.length > b.length then a else b
  let smaller := if a.length > b.length then b else a
  let collected := zIntersectLoop smaller smaller.length larger
  collected ++ List.replicate (smaller.length - collected.length) zZero

/-- Embedding of the result-selection block of `SearchCommand`
(src/unnamed/part_006:190-200): when both resolved sets are non-empty the
intersection is truncated to 25; when exactly one resolves it is used
directly, with no truncation. -/
def searchResults25 (searchResults flairs : List Zentry) : List Zentry :=
  if searchResults.length ≠ 0 ∧ flairs.length ≠ 0 then
    let results := ZIntersect searchResults flairs
    if results.length > 25 then results.take 25 else results
  else if searchResults.length ≠ 0 then searchResults
  else if flairs.length ≠ 0 then flairs
  else []

/-- The term-ranked set of the intersection example of the spec: members
1, 2, 3 with equal scores. -/
def zSetA : List Zentry := [⟨0, some "1"⟩, ⟨0, some "2"⟩, ⟨0, some "3"⟩]

/-- The flair-ranked set of the intersection example of the spec: members
2, 3, 4 with equal scores. -/
def zSetB : List Zentry := [⟨0, some "2"⟩, ⟨0, some "3"⟩, ⟨0, some "4"⟩]

/-- A resolved single set of 26 distinct-score entries, one past the cap. -/
def zSet26 : List Zentry := (List.range 26).map (fun n => ⟨(n : Int), some "m"⟩)

/-- C3.  On the member sets {1,2,3} and {2,3,4} of the spec the result list is
`[2, 3, zZero]`: the zero-valued `redis.Z` pads the unfilled tail of the
returned slice, so the member set of the result contains a nil member beyond
the exact intersection {2,3}.  And when only one set resolves the result is
handed back unc truncated: 26 entries, exceeding the 25 cap. -/
theorem searchCommand_results_diverge :
    searchResults25 zSetA zSetB = [⟨0, some "2"⟩, ⟨0, some "3"⟩, zZero] ∧
    (searchResults25 zSet26 []).length = 26 := by
  constructor
  · rfl
  · have hlen : zSet26.length = 26 := by rfl
    have hsingle : searchResults25 zSet26 [] = zSet26 := by
      simp [searchResults25, hlen]
    rw [hsingle, hlen]

/-! ### Reply assembly (src/unnamed/part_006:201-212)

For each surviving result the Go loop takes `result.Member.(string)` —
skipping (after a development-mode log) members that are not strings — and
appends `"- " + linkMap[member]`, where `linkMap` is the Go map read by
`HGetAll` from the display-string store: indexing a missing key yields the
zero value `""`.
-/

/-- Go map indexing `linkMap[member]`: the stored string, or `""` when the
member has no entry. -/
def lookupLink (linkMap : List (String × String)) (m : String) : String :=
  match linkMap.find? (fun kv => kv.1 = m) with
  | some kv => kv.2
  | none => ""

/-- Embedding of the link-collection loop of `SearchCommand`
(src/unnamed/part_006:201-212). -/
def buildLinks (linkMap : List (String × String)) : List Zentry → List String
  | [] => []
  | result :: rest =>
    match result.member with
    | none => buildLinks linkMap rest
    | some m => ("- " ++ lookupLink linkMap m) :: buildLinks linkMap rest

/-- `buildLinks` emits exactly one line per string member, in order. -/
theorem buildLinks_eq_filterMap (linkMap : List (String × String)) (results : List Zentry) :
    buildLinks linkMap results
      = results.filterMap (fun r => r.member.map (fun m => "- " ++ lookupLink linkMap m)) := by
  induction results with
  | nil => rfl
  | cons r rest ih =>
    cases hm : r.member with
    | none => simp [buildLinks, hm, List.filterMap_cons, ih]
    | some m => simp [buildLinks, hm, List.filterMap_cons, ih]

/-- `buildLinks` never drops a string-valued member: one line per such member. -/
theorem buildLinks_length (linkMap : List (String × String)) (results : List Zentry) :
    (buildLinks linkMap results).length = results.countP (fun z => z.member.isSome) := by
  induction results with
  | nil => rfl
  | cons r rest ih =>
    cases hm : r.member with
    | none => simp [buildLinks, hm, List.countP_cons, ih]
    | some m => simp [buildLinks, hm, List.countP_cons, ih]

/-- C9 counterexample.  A result whose member `t3_aaaaaa` has no entry in the
display-string store still produces a reply line (the bullet with an empty
display string), where the claim says the reply includes no line for it. -/
theorem buildLinks_missing_member_counterexample :
    buildLinks [] [⟨0, some "t3_aaaaaa"⟩] = ["- "] := by
  rfl

/-- C9 as amended.  A member of the resolved result set with no entry in the
display-string store is not skipped: the reply contains one line per
string-valued member — so the line of the missing member appears, as the
bullet followed by the empty display string — and the assembly never fails,
while members with display strings keep their stored lines. -/
theorem buildLinks_missing_display (linkMap : List (String × String))
    (results : List Zentry) (r : Zentry) (m : String)
    (hmem : r ∈ results) (hm : r.member = some m)
    (hmiss : linkMap.find? (fun kv => kv.1 = m) = none) :
    ("- " ++ lookupLink linkMap m) ∈ buildLinks linkMap results ∧
    lookupLink linkMap m = "" ∧
    (buildLinks linkMap results).length = results.countP (fun z => z.member.isSome) := by
  refine ⟨?_, ?_, ?_⟩
  · rw [buildLinks_eq_filterMap]
    exact List.mem_filterMap.mpr ⟨r, hmem, by rw [hm]; rfl⟩
  · simp [lookupLink, hmiss]
  · exact buildLinks_length linkMap results

/-- Witness for C9: one resolved member with no display-string entry yields
the single line `"- "`. -/
theorem buildLinks_missing_display_witness :
    ("- " ++ lookupLink [] "t3_bbbbbb") ∈ buildLinks [] [⟨5, some "t3_bbbbbb"⟩] ∧
    lookupLink [] "t3_bbbbbb" = "" ∧
    (buildLinks [] [⟨5, some "t3_bbbbbb"⟩]).length
      = ([⟨5, some "t3_bbbbbb"⟩] : List Zentry).countP (fun z => z.member.isSome) := by
  exact buildLinks_missing_display [] [⟨5, some "t3_bbbbbb"⟩] ⟨5, some "t3_bbbbbb"⟩
    "t3_bbbbbb" (by simp) rfl rfl

/-! ## Historical batch reader (src/pushshift.go ReadSubmissionBatch)

`PushshiftSearch` holds the last-seen record and the exhaustion flag
(src/pushshift.go:13-16).  `PSub` embeds the fields of `PushshiftSubmission`
that `ReadSubmissionBatch` inspects: `FullID` and `DateCreated` (an epoch,
integral in every batch, embedded as `Int`; the Go `DateCreated++` adds one
unit exactly).
-/

structure PSub where
  fullID : String
  dateCreated : Int
deriving DecidableEq, Repr

/-- The zero value of `PushshiftSubmission`, produced by
`lastBatch := &PushshiftSubmission{}` when no record has been seen
(src/pushshift.go:133-136). -/
def psZero : PSub := ⟨"", 0⟩

structure PSearch where
  last : Option PSub
  done : Bool
deriving DecidableEq, Repr

/-- The outcome of one `ReadSubmissionBatch` call: the exhaustion sentinel
`ErrSubmissionsRead` with no records, the recoverable `ErrMaySkipSubmissions`
with the batch, or the batch alone. -/
inductive BatchSignal where
  | readDone
  | maySkip (subs : List PSub)
  | okBatch (subs : List PSub)
deriving DecidableEq, Repr

/-- The scan of the dedup loop (src/pushshift.go:138-147): the suffix after the
first record whose ID equals the stored one, if any record matches. -/
def dedupAfter (lastID : String) : List PSub → Option (List PSub)
  | [] => none
  | s :: rest => if s.fullID = lastID then some rest else dedupAfter lastID rest

/-- The dedup of `ReadSubmissionBatch` (src/pushshift.go:138-147): when some
record matches the stored ID, everything up to and including it is dropped
(`submissions = submissions[i+1:]`); otherwise the batch is unchanged. -/
def dedupBatch (lastID : String) (subs : List PSub) : List PSub :=
  (dedupAfter lastID subs).getD subs

/-- Embedding of `ReadSubmissionBatch` (src/pushshift.go:115-173) after the
HTTP fetch, `fetched` being the decoded response.  When already exhausted the
sentinel returns at once; after dedup an empty remainder, or a single record
still carrying the stored ID, clears the anchor, marks the reader done and
signals `ErrSubmissionsRead`; otherwise the anchor becomes the last record of
the remainder, with its epoch advanced by one unit — and the batch returned
with `ErrMaySkipSubmissions` — when that epoch equals the stored one. -/
def readSubmissionBatchStep (st : PSearch) (fetched : List PSub) : PSearch × BatchSignal :=
  if st.done then (st, BatchSignal.readDone)
  else
    let lastBatch := st.last.getD psZero
    let subs := dedupBatch lastBatch.fullID fetched
    if subs.length = 0 ∨ (subs.length = 1 ∧ (subs.headD psZero).fullID = lastBatch.fullID) then
      (⟨none, true⟩, BatchSignal.readDone)
    else
      let lastSubmission := subs.getLastD psZero
      if lastSubmission.dateCreated = lastBatch.dateCreated then
        (⟨some { lastSubmission with dateCreated := lastSubmission.dateCreated + 1 }, false⟩,
          BatchSignal.maySkip subs)
      else
        (⟨some lastSubmission, false⟩, BatchSignal.okBatch subs)

/-- The boundary parameter of the next request (src/pushshift.go:182-185):
`before = last.DateCreated + 1` when a record is stored, else absent. -/
def nextRequestBefore (st : PSearch) : Option Int :=
  st.last.map (fun s => s.dateCreated + 1)

/-- Unfolding of `readSubmissionBatchStep` on a non-exhausted state. -/
theorem readSubmissionBatchStep_not_done (prev : PSub) (fetched : List PSub) :
    readSubmissionBatchStep ⟨some prev, false⟩ fetched
      = (if (dedupBatch prev.fullID fetched).length = 0 ∨
            ((dedupBatch prev.fullID fetched).length = 1 ∧
              ((dedupBatch prev.fullID fetched).headD psZero).fullID = prev.fullID) then
           (⟨none, true⟩, BatchSignal.readDone)
         else if ((dedupBatch prev.fullID fetched).getLastD psZero).dateCreated
             = prev.dateCreated then
           (⟨some { (dedupBatch prev.fullID fetched).getLastD psZero with
                      dateCreated :=
                        ((dedupBatch prev.fullID fetched).getLastD psZero).dateCreated + 1 },
              false⟩,
             BatchSignal.maySkip (dedupBatch prev.fullID fetched))
         else
           (⟨some ((dedupBatch prev.fullID fetched).getLastD psZero), false⟩,
             BatchSignal.okBatch (dedupBatch prev.fullID fetched))) := by
  rfl

/-- C6 counterexample.  With stored anchor `(t3_aaaa00, 10)` and a fetched
batch repeating that ID twice at epoch 10, the post-dedup batch is the
non-empty `[(t3_aaaa00, 10)]`, whose last (only) record has the anchor epoch —
the premise of the claim — yet the reader clears the anchor and signals
`ErrSubmissionsRead` instead of advancing the epoch and returning the batch
with `ErrMaySkipSubmissions`. -/
theorem readSubmissionBatch_same_epoch_counterexample :
    dedupBatch "t3_aaaa00" [⟨"t3_aaaa00", 10⟩, ⟨"t3_aaaa00", 10⟩] = [⟨"t3_aaaa00", 10⟩] ∧
    readSubmissionBatchStep ⟨some ⟨"t3_aaaa00", 10⟩, false⟩
        [⟨"t3_aaaa00", 10⟩, ⟨"t3_aaaa00", 10⟩]
      = (⟨none, true⟩, BatchSignal.readDone) := by
  exact ⟨rfl, rfl⟩

/-- C6 as amended.  Whenever the reader is not exhausted and the post-dedup
batch is non-empty, is not a single record carrying the stored ID again, and
its last record has the epoch of the stored anchor, the stored epoch advances
by exactly one unit, the batch is still returned together with the
`ErrMaySkipSubmissions` sentinel, and the before parameter of the next request
is computed from the advanced epoch (stored epoch plus two). -/
theorem readSubmissionBatch_same_epoch_advances (st : PSearch) (prev : PSub)
    (fetched subs : List PSub)
    (hdone : st.done = false) (hlast : st.last = some prev)
    (hsubs : subs = dedupBatch prev.fullID fetched)
    (hne : subs ≠ [])
    (hnotdup : ¬ (subs.length = 1 ∧ (subs.headD psZero).fullID = prev.fullID))
    (hepoch : (subs.getLastD psZero).dateCreated = prev.dateCreated) :
    readSubmissionBatchStep st fetched
      = (⟨some { subs.getLastD psZero with dateCreated := prev.dateCreated + 1 }, false⟩,
         BatchSignal.maySkip subs) ∧
    nextRequestBefore
        ⟨some { subs.getLastD psZero with dateCreated := prev.dateCreated + 1 }, false⟩
      = some (prev.dateCreated + 2) := by
  have hst : st = ⟨some prev, false⟩ := by
    cases st
    simp_all
  subst hst
  have hcond : ¬ (subs.length = 0 ∨
      (subs.length = 1 ∧ (subs.headD psZero).fullID = prev.fullID)) := by
    rintro (h0 | hdup)
    · exact hne (List.length_eq_zero.mp h0)
    · exact hnotdup hdup
  constructor
  · rw [readSubmissionBatchStep_not_done, ← hsubs, if_neg hcond, if_pos hepoch, hepoch]
  · simp [nextRequestBefore]
    ring

/-- Witness for C6: anchor `(t3_aaaa00, 10)`, a fetched page whose three
records all carry epoch 10 and whose first record repeats the anchor ID.  The
stored anchor becomes `(t3_cccc00, 11)` and the next before parameter is 12. -/
theorem readSubmissionBatch_same_epoch_witness :
    readSubmissionBatchStep ⟨some ⟨"t3_aaaa00", 10⟩, false⟩
        [⟨"t3_aaaa00", 10⟩, ⟨"t3_bbbb00", 10⟩, ⟨"t3_cccc00", 10⟩]
      = (⟨some ⟨"t3_cccc00", 11⟩, false⟩,
         BatchSignal.maySkip [⟨"t3_bbbb00", 10⟩, ⟨"t3_cccc00", 10⟩]) ∧
    nextRequestBefore ⟨some ⟨"t3_cccc00", 11⟩, false⟩ = some 12 := by
  exact readSubmissionBatch_same_epoch_advances
    ⟨some ⟨"t3_aaaa00", 10⟩, false⟩ ⟨"t3_aaaa00", 10⟩
    [⟨"t3_aaaa00", 10⟩, ⟨"t3_bbbb00", 10⟩, ⟨"t3_cccc00", 10⟩]
    [⟨"t3_bbbb00", 10⟩, ⟨"t3_cccc00", 10⟩]
    rfl rfl rfl (by decide) (by decide) rfl

/-- C7 counterexample.  With stored anchor ID `t3_aaaa11`, a fetched batch
whose first record carries that ID and whose second record is a further
occurrence of the same ID at epoch 11: the claim requires the returned batch
`[(t3_aaaa11, 11)]`, but the reader signals exhaustion and returns no
records. -/
theorem readSubmissionBatch_dedup_counterexample :
    readSubmissionBatchStep ⟨some ⟨"t3_aaaa11", 10⟩, false⟩
        [⟨"t3_aaaa11", 10⟩, ⟨"t3_aaaa11", 11⟩]
      = (⟨none, true⟩, BatchSignal.readDone) := by
  rfl

/-- C7 as amended.  For every fetched batch whose first record carries the
stored anchor ID, that leading duplicate is dropped; when the remainder is
empty or is a single record carrying the stored ID again the reader signals
exhaustion and returns no records, and otherwise the returned batch is exactly
the remainder — all subsequent records in their original order — whichever of
the two sentinels accompanies it. -/
theorem readSubmissionBatch_leading_dedup (st : PSearch) (prev x : PSub)
    (rest : List PSub)
    (hdone : st.done = false) (hlast : st.last = some prev)
    (hid : x.fullID = prev.fullID) :
    dedupBatch prev.fullID (x :: rest) = rest ∧
    ((rest = [] ∨ (rest.length = 1 ∧ (rest.headD psZero).fullID = prev.fullID)) →
      readSubmissionBatchStep st (x :: rest) = (⟨none, true⟩, BatchSignal.readDone)) ∧
    ((rest ≠ [] ∧ ¬ (rest.length = 1 ∧ (rest.headD psZero).fullID = prev.fullID)) →
      (readSubmissionBatchStep st (x :: rest)).2 = BatchSignal.maySkip rest ∨
        (readSubmissionBatchStep st (x :: rest)).2 = BatchSignal.okBatch rest) := by
  have hst : st = ⟨some prev, false⟩ := by
    cases st
    simp_all
  subst hst
  have hd : dedupBatch prev.fullID (x :: rest) = rest := by
    simp [dedupBatch, dedupAfter, hid]
  refine ⟨hd, ?_, ?_⟩
  · intro hstop
    rw [readSubmissionBatchStep_not_done, hd]
    have hyes : rest.length = 0 ∨ (rest.length = 1 ∧ (rest.headD psZero).fullID = prev.fullID) := by
      rcases hstop with h | h
      · exact Or.inl (by simp [h])
      · exact Or.inr h
    rw [if_pos hyes]
  · intro ⟨hne, hnotdup⟩
    rw [readSubmissionBatchStep_not_done, hd]
    have hcond : ¬ (rest.length = 0 ∨ (rest.length = 1 ∧ (rest.headD psZero).fullID = prev.fullID)) := by
      rintro (h0 | hdup)
      · exact hne (List.length_eq_zero.mp h0)
      · exact hnotdup hdup
    rw [if_neg hcond]
    by_cases hep : (rest.getLastD psZero).dateCreated = prev.dateCreated
    · rw [if_pos hep]
      exact Or.inl rfl
    · rw [if_neg hep]
      exact Or.inr rfl

/-- Witness for C7: the batch `[(t3_dddd00, 10), (t3_eeee00, 11), (t3_ffff00, 12)]`
against the anchor `(t3_dddd00, 10)`: the leading duplicate is excluded and
the two subsequent records come back in order. -/
theorem readSubmissionBatch_leading_dedup_witness :
    dedupBatch "t3_dddd00" [⟨"t3_dddd00", 10⟩, ⟨"t3_eeee00", 11⟩, ⟨"t3_ffff00", 12⟩]
      = [⟨"t3_eeee00", 11⟩, ⟨"t3_ffff00", 12⟩] ∧
    ((readSubmissionBatchStep ⟨some ⟨"t3_dddd00", 10⟩, false⟩
        [⟨"t3_dddd00", 10⟩, ⟨"t3_eeee00", 11⟩, ⟨"t3_ffff00", 12⟩]).2
      = BatchSignal.maySkip [⟨"t3_eeee00", 11⟩, ⟨"t3_ffff00", 12⟩] ∨
     (readSubmissionBatchStep ⟨some ⟨"t3_dddd00", 10⟩, false⟩
        [⟨"t3_dddd00", 10⟩, ⟨"t3_eeee00", 11⟩, ⟨"t3_ffff00", 12⟩]).2
      = BatchSignal.okBatch [⟨"t3_eeee00", 11⟩, ⟨"t3_ffff00", 12⟩]) := by
  have h := readSubmissionBatch_leading_dedup ⟨some ⟨"t3_dddd00", 10⟩, false⟩
    ⟨"t3_dddd00", 10⟩ ⟨"t3_dddd00", 10⟩ [⟨"t3_eeee00", 11⟩, ⟨"t3_ffff00", 12⟩]
    rfl rfl rfl
  exact ⟨h.1, h.2.2 (by decide)⟩
